import Mathlib

/-!
# Risk-Redux v1 — verification of the core engine

Shallow embedding of the Risk-Redux deterministic risk-evaluation engine:
the decision function `evaluate_v1` (both the rule-parameterised variant of
`src/unnamed/part_000` and the hard-coded variant of `src/app/page.tsx`),
the exposure aggregator `computeExposures`, the rule-store merge `loadRules`
and the ledger append `addToLedger`.

JavaScript `number` values are modelled as rationals (`ℚ`): every arithmetic
operation the engine performs (addition, multiplication, division by 100,
comparison) is exact on the values the engine manipulates, and `ℚ` has no
non-finite values, so `Number.isFinite` is identically true in the model.
Strings are `String`, booleans `Bool`, lists `List`.
-/

/-- Verdict tier, `type Verdict = "ALLOW" | "WARN" | "HARD_WARN" | "RED_ALERT"`. -/
inductive Verdict where
  | ALLOW
  | WARN
  | HARD_WARN
  | RED_ALERT
deriving DecidableEq, Repr

/-- `type UserRules` (part_000 lines 5–13): five percentage caps plus
frequency cap and odds gate, all JS numbers. -/
structure UserRules where
  unit_pct : ℚ
  daily_pct : ℚ
  weekly_pct : ℚ
  group1_pct : ℚ
  group2_pct : ℚ
  freq_cap : ℚ
  odds_gate : ℚ
deriving DecidableEq, Repr

/-- `type ProposedBet` (part_000 line 14). -/
structure ProposedBet where
  stake : ℚ
  odds : ℚ
  group1_id : String
  group2_id : String
deriving DecidableEq, Repr

/-- `type Exposures` (part_000 line 15); `bets_today` is a JS number. -/
structure Exposures where
  daily_staked : ℚ
  weekly_staked : ℚ
  same_group1_staked : ℚ
  same_group2_7d_staked : ℚ
  bets_today : ℚ
deriving DecidableEq, Repr

/-- `type BehavioralState` (part_000 line 16). -/
structure BehavioralState where
  stake_velocity_spike : Bool
  frequency_spike : Bool
  consecutive_overrides : ℚ
  cooldown_violations : ℚ
  cooldown_active : Bool
deriving DecidableEq, Repr

/-- `type DecisionResult` (part_000 line 18). -/
structure DecisionResult where
  verdict : Verdict
  reasons : List String
  friction_required : Bool
  cooldown_triggered : Bool
deriving DecidableEq, Repr

/- The reason-code string constants `R` (part_000 lines 20–33; identical to
`REASONS` in page.tsx lines 47–60). -/
namespace R

def UNIT : String := "UNIT_SIZE_CAP_EXCEEDED"

def DAILY : String := "DAILY_EXPOSURE_CAP_EXCEEDED"

def WEEKLY : String := "WEEKLY_EXPOSURE_CAP_EXCEEDED"

def EVENT : String := "SAME_EVENT_CONCENTRATION_CAP_EXCEEDED"

def TEAM : String := "SAME_TEAM_7D_CONCENTRATION_CAP_EXCEEDED"

def FREQ : String := "ACTION_FREQUENCY_CAP_EXCEEDED"

def ODDS : String := "HIGH_RISK_ODDS_GATE"

def STAKE_SPIKE : String := "STAKE_VELOCITY_SPIKE"

def FREQ_SPIKE : String := "FREQUENCY_SPIKE"

def CONS_OVR : String := "CONSECUTIVE_OVERRIDES_HIGH"

def CD_HIST : String := "COOLDOWN_VIOLATION_HISTORY"

def CD_ACTIVE : String := "COOLDOWN_ACTIVE"

end R

/-- `DEFAULT_RULES` (part_000 lines 35–37). -/
def DEFAULT_RULES : UserRules :=
  { unit_pct := 2, daily_pct := 6, weekly_pct := 20, group1_pct := 4
  , group2_pct := 8, freq_cap := 5, odds_gate := 250 }

/-- `isValidAmericanOdds` (part_000 lines 39–41; identical in page.tsx
lines 62–65): `Number.isFinite(n) && Number.isInteger(n) && n !== 0`.
On `ℚ` every value is finite, so the finiteness conjunct is `true`;
`Number.isInteger` is `n.den = 1`. -/
def isValidAmericanOdds (n : ℚ) : Bool :=
  n.den == 1 && !(n == 0)

/-- `rank` (part_000 line 42; `tierRank` in page.tsx lines 67–69). -/
def rank (v : Verdict) : ℕ :=
  match v with
  | .ALLOW => 0
  | .WARN => 1
  | .HARD_WARN => 2
  | .RED_ALERT => 3

/-- `maxTier` (part_000 line 43; identical in page.tsx lines 70–72). -/
def maxTier (a b : Verdict) : Verdict :=
  if rank a ≥ rank b then a else b

/-- `escalateOneTier` (part_000 line 44; identical in page.tsx lines 73–75). -/
def escalateOneTier (v : Verdict) : Verdict :=
  match v with
  | .ALLOW => .WARN
  | .WARN => .HARD_WARN
  | _ => .RED_ALERT

/-- The six cap checks of `evaluate_v1` (part_000 lines 49–71): caps derived
from bankroll and rule percentages, post-bet projections, and the six strict
`>` comparisons pushing codes in fixed order. -/
def capViolations (bankroll : ℚ) (rules : UserRules) (bet : ProposedBet)
    (exp : Exposures) : List String :=
  let B := bankroll
  let S := bet.stake
  let unit_cap := B * (rules.unit_pct / 100)
  let daily_cap := B * (rules.daily_pct / 100)
  let weekly_cap := B * (rules.weekly_pct / 100)
  let event_cap := B * (rules.group1_pct / 100)
  let team_cap := B * (rules.group2_pct / 100)
  let post_daily := exp.daily_staked + S
  let post_weekly := exp.weekly_staked + S
  let post_event := exp.same_group1_staked + S
  let post_team7d := exp.same_group2_7d_staked + S
  let post_bets := exp.bets_today + 1
  (if S > unit_cap then [R.UNIT] else [])
    ++ (if post_daily > daily_cap then [R.DAILY] else [])
    ++ (if post_weekly > weekly_cap then [R.WEEKLY] else [])
    ++ (if post_event > event_cap then [R.EVENT] else [])
    ++ (if post_team7d > team_cap then [R.TEAM] else [])
    ++ (if post_bets > rules.freq_cap then [R.FREQ] else [])

/-- The odds gate of `evaluate_v1` (part_000 lines 73–74):
`if (oddsInvalid || bet.odds >= rules.odds_gate) gates.push(R.ODDS)`. -/
def oddsGates (rules : UserRules) (bet : ProposedBet) : List String :=
  if isValidAmericanOdds bet.odds = false ∨ bet.odds ≥ rules.odds_gate
  then [R.ODDS] else []

/-- The behavioural flags of `evaluate_v1` (part_000 lines 76–79), collected
in fixed order. -/
def behaviorFlags (beh : BehavioralState) : List String :=
  (if beh.stake_velocity_spike then [R.STAKE_SPIKE] else [])
    ++ (if beh.frequency_spike then [R.FREQ_SPIKE] else [])
    ++ (if beh.consecutive_overrides ≥ 2 then [R.CONS_OVR] else [])
    ++ (if beh.cooldown_violations ≥ 1 then [R.CD_HIST] else [])

/-- Base verdict mapping of `evaluate_v1` (part_000 lines 81–88): the
`let verdict = "ALLOW"` initialisation followed by the if/else chain on the
violation and gate counts. -/
def baseVerdict (vCount gCount : ℕ) : Verdict :=
  if vCount = 0 ∧ gCount = 0 then .ALLOW
  else if vCount = 0 ∧ gCount > 0 then .WARN
  else if vCount = 1 then .WARN
  else if vCount ≥ 2 then .HARD_WARN
  else .ALLOW

/-- Amplification rule 1 (part_000 line 90):
`if (violations.includes(R.WEEKLY)) verdict = "RED_ALERT"`. -/
def amp1 (violations : List String) (v : Verdict) : Verdict :=
  if R.WEEKLY ∈ violations then .RED_ALERT else v

/-- Amplification rule 2 (part_000 line 91):
`if (beh.consecutive_overrides >= 3) verdict = "RED_ALERT"`. -/
def amp2 (beh : BehavioralState) (v : Verdict) : Verdict :=
  if beh.consecutive_overrides ≥ 3 then .RED_ALERT else v

/-- Amplification rule 3 (part_000 line 92):
`if (beh.cooldown_violations >= 1 && vCount >= 1) verdict = "RED_ALERT"`. -/
def amp3 (beh : BehavioralState) (vCount : ℕ) (v : Verdict) : Verdict :=
  if beh.cooldown_violations ≥ 1 ∧ vCount ≥ 1 then .RED_ALERT else v

/-- Amplification rule 4 (part_000 line 93): escalate one tier when any
violation coincides with a stake-velocity or frequency spike. -/
def amp4 (beh : BehavioralState) (vCount : ℕ) (v : Verdict) : Verdict :=
  if vCount ≥ 1 ∧ (beh.stake_velocity_spike || beh.frequency_spike) = true
  then escalateOneTier v else v

/-- Amplification rule 5 (part_000 line 94): at least HARD_WARN when the odds
gate coincides with a stake-velocity or frequency spike. -/
def amp5 (beh : BehavioralState) (gates : List String) (v : Verdict) : Verdict :=
  if R.ODDS ∈ gates ∧ (beh.stake_velocity_spike || beh.frequency_spike) = true
  then maxTier v .HARD_WARN else v

/-- The five sequential reassignments of `verdict` (part_000 lines 90–94)
applied to the base verdict. -/
def amplify (violations gates : List String) (beh : BehavioralState)
    (v : Verdict) : Verdict :=
  amp5 beh gates (amp4 beh violations.length
    (amp3 beh violations.length (amp2 beh (amp1 violations v))))

/-- `evaluate_v1` (part_000 lines 46–100): cooldown hard stop, then cap
violations, odds gate, behavioural flags, base verdict, amplification, and
assembly of the result. -/
def evaluate_v1 (bankroll : ℚ) (rules : UserRules) (bet : ProposedBet)
    (exp : Exposures) (beh : BehavioralState) : DecisionResult :=
  if beh.cooldown_active then
    { verdict := .RED_ALERT, reasons := [R.CD_ACTIVE]
    , friction_required := true, cooldown_triggered := true }
  else
    let violations := capViolations bankroll rules bet exp
    let gates := oddsGates rules bet
    let flags := behaviorFlags beh
    let verdict := amplify violations gates beh
      (baseVerdict violations.length gates.length)
    { verdict := verdict
    , reasons := violations ++ gates ++ flags
    , friction_required := verdict != .ALLOW
    , cooldown_triggered := verdict == .RED_ALERT }

/-!
## The duplicated engine of `src/app/page.tsx`

`page.tsx` carries its own copy of the engine (lines 86–187).  It differs
from `part_000` in two ways: the caps, frequency cap and odds gate are
hard-coded (`B * 0.02`, `B * 0.06`, `B * 0.20`, `B * 0.04`, `B * 0.08`,
`post_bets > 5`, `odds >= 250`) instead of drawn from a `UserRules` value,
and its `BehavioralState` carries three extra counter fields that the
function never reads.  Its helpers `isValidAmericanOdds`, `tierRank`,
`maxTier` and `escalateOneTier` are textually identical to the `part_000`
ones and are shared here.
-/

/-- `type BehavioralState` of page.tsx (lines 27–36), with the three extra
counters `warnings_last_24h`, `warnings_last_7d`, `overrides_last_7d`. -/
structure BehavioralStatePage where
  warnings_last_24h : ℚ
  warnings_last_7d : ℚ
  overrides_last_7d : ℚ
  consecutive_overrides : ℚ
  cooldown_violations : ℚ
  stake_velocity_spike : Bool
  frequency_spike : Bool
  cooldown_active : Bool
deriving DecidableEq, Repr

/-- Projection of page.tsx's behavioural state onto the fields shared with
`part_000`'s `BehavioralState`. -/
def BehavioralStatePage.toCore (b : BehavioralStatePage) : BehavioralState :=
  { stake_velocity_spike := b.stake_velocity_spike
  , frequency_spike := b.frequency_spike
  , consecutive_overrides := b.consecutive_overrides
  , cooldown_violations := b.cooldown_violations
  , cooldown_active := b.cooldown_active }

/-- `evaluate_v1` of page.tsx (lines 86–187), translated inline with its
hard-coded caps. -/
def evaluate_page (bankroll : ℚ) (bet : ProposedBet) (exposures : Exposures)
    (behavioral : BehavioralStatePage) : DecisionResult :=
  if behavioral.cooldown_active = true then
    { verdict := .RED_ALERT, reasons := [R.CD_ACTIVE]
    , friction_required := true, cooldown_triggered := true }
  else
    let B := bankroll
    let S := bet.stake
    let unit_cap := B * 0.02
    let daily_cap := B * 0.06
    let weekly_cap := B * 0.20
    let group1_cap := B * 0.04
    let group2_cap := B * 0.08
    let post_daily := exposures.daily_staked + S
    let post_weekly := exposures.weekly_staked + S
    let post_group1 := exposures.same_group1_staked + S
    let post_group2 := exposures.same_group2_7d_staked + S
    let post_bets := exposures.bets_today + 1
    let violations :=
      (if S > unit_cap then [R.UNIT] else [])
        ++ (if post_daily > daily_cap then [R.DAILY] else [])
        ++ (if post_weekly > weekly_cap then [R.WEEKLY] else [])
        ++ (if post_group1 > group1_cap then [R.EVENT] else [])
        ++ (if post_group2 > group2_cap then [R.TEAM] else [])
        ++ (if post_bets > 5 then [R.FREQ] else [])
    let gates :=
      if isValidAmericanOdds bet.odds = false ∨ bet.odds ≥ 250
      then [R.ODDS] else []
    let flags :=
      (if behavioral.stake_velocity_spike then [R.STAKE_SPIKE] else [])
        ++ (if behavioral.frequency_spike then [R.FREQ_SPIKE] else [])
        ++ (if behavioral.consecutive_overrides ≥ 2 then [R.CONS_OVR] else [])
        ++ (if behavioral.cooldown_violations ≥ 1 then [R.CD_HIST] else [])
    let violationCount := violations.length
    let gateCount := gates.length
    let verdict0 : Verdict :=
      if violationCount = 0 ∧ gateCount = 0 then .ALLOW
      else if violationCount = 0 ∧ gateCount > 0 then .WARN
      else if violationCount = 1 then .WARN
      else if violationCount ≥ 2 then .HARD_WARN
      else .ALLOW
    let verdict1 := if R.WEEKLY ∈ violations then Verdict.RED_ALERT else verdict0
    let verdict2 :=
      if behavioral.consecutive_overrides ≥ 3 then Verdict.RED_ALERT else verdict1
    let verdict3 :=
      if behavioral.cooldown_violations ≥ 1 ∧ violationCount ≥ 1
      then Verdict.RED_ALERT else verdict2
    let verdict4 :=
      if violationCount ≥ 1 ∧
          (behavioral.stake_velocity_spike || behavioral.frequency_spike) = true
      then escalateOneTier verdict3 else verdict3
    let verdict :=
      if R.ODDS ∈ gates ∧
          (behavioral.stake_velocity_spike || behavioral.frequency_spike) = true
      then maxTier verdict4 .HARD_WARN else verdict4
    { verdict := verdict
    , reasons := violations ++ gates ++ flags
    , friction_required := verdict != .ALLOW
    , cooldown_triggered := verdict == .RED_ALERT }

/-!
## Ledger, exposure aggregation, storage
-/

/-- `type LedgerEntry` (part_000 line 103): timestamps are JS millisecond
numbers. -/
structure LedgerEntry where
  id : String
  ts : ℚ
  stake : ℚ
  odds : ℚ
  group1_id : String
  group2_id : String
  verdict : Verdict
  reasons : List String
deriving DecidableEq, Repr

/-- `const MS_7D = 7*24*60*60*1000` (part_000 line 126). -/
def MS_7D : ℚ := 7 * 24 * 60 * 60 * 1000

/-- The loop body of `computeExposures` (part_000 lines 135–139): one ledger
entry folded into the running exposure sums.  `dayStart`, `weekStart` and
`t7` are the three window lower bounds. -/
def expStep (group1_id group2_id : String) (dayStart weekStart t7 : ℚ)
    (acc : Exposures) (e : LedgerEntry) : Exposures :=
  let acc1 :=
    if e.ts ≥ dayStart then
      { acc with
        daily_staked := acc.daily_staked + e.stake
        bets_today := acc.bets_today + 1
        same_group1_staked :=
          if e.group1_id = group1_id then acc.same_group1_staked + e.stake
          else acc.same_group1_staked }
    else acc
  let acc2 :=
    if e.ts ≥ weekStart then
      { acc1 with weekly_staked := acc1.weekly_staked + e.stake }
    else acc1
  if e.ts ≥ t7 ∧ e.group2_id = group2_id then
    { acc2 with
      same_group2_7d_staked := acc2.same_group2_7d_staked + e.stake }
  else acc2

/-- `computeExposures` (part_000 lines 128–141).  The source derives
`dayStart` and `weekStart` from the wall clock via `startOfLocalDay` and
`startOfISOWeekLocal`; per the design, the clock and the local calendar
boundaries are external inputs, so they are parameters here, while
`t7 = now - MS_7D` is computed as in the source (line 132). -/
def computeExposures (ledger : List LedgerEntry) (group1_id group2_id : String)
    (dayStart weekStart now : ℚ) : Exposures :=
  let t7 := now - MS_7D
  ledger.foldl (expStep group1_id group2_id dayStart weekStart t7)
    { daily_staked := 0, weekly_staked := 0, same_group1_staked := 0
    , same_group2_7d_staked := 0, bets_today := 0 }

/-- A stored (possibly partial) rule object, as produced by
`JSON.parse` of the `rr_v1_rules` blob: each of the seven fields may be
absent. -/
structure StoredRules where
  unit_pct : Option ℚ
  daily_pct : Option ℚ
  weekly_pct : Option ℚ
  group1_pct : Option ℚ
  group2_pct : Option ℚ
  freq_cap : Option ℚ
  odds_gate : Option ℚ
deriving DecidableEq, Repr

/-- The three states the rule store can be in when `loadRules` reads it:
no blob under the key, a blob `JSON.parse` rejects, or a parsed partial
object. -/
inductive RuleStorage where
  | absent
  | corrupt
  | stored (p : StoredRules)
deriving DecidableEq, Repr

/-- The spread merge `{ ...DEFAULT_RULES, ...parsed }` (part_000 line 113):
a present field overrides the default, an absent one keeps it. -/
def mergeRules (p : StoredRules) : UserRules :=
  { unit_pct := p.unit_pct.getD DEFAULT_RULES.unit_pct
  , daily_pct := p.daily_pct.getD DEFAULT_RULES.daily_pct
  , weekly_pct := p.weekly_pct.getD DEFAULT_RULES.weekly_pct
  , group1_pct := p.group1_pct.getD DEFAULT_RULES.group1_pct
  , group2_pct := p.group2_pct.getD DEFAULT_RULES.group2_pct
  , freq_cap := p.freq_cap.getD DEFAULT_RULES.freq_cap
  , odds_gate := p.odds_gate.getD DEFAULT_RULES.odds_gate }

/-- `loadRules` (part_000 lines 112–115): `!raw` and the catch branch both
return `DEFAULT_RULES`; a parsed object is spread over the defaults. -/
def loadRules : RuleStorage → UserRules
  | .absent => DEFAULT_RULES
  | .corrupt => DEFAULT_RULES
  | .stored p => mergeRules p

/-- The ledger append of `addToLedger` (part_000 line 212):
`[entry, ...ledger].slice(0, 500)`. -/
def addToLedger (entry : LedgerEntry) (ledger : List LedgerEntry) :
    List LedgerEntry :=
  (entry :: ledger).take 500

/-!
## Helper lemmas
-/

/-- Membership in a conditional singleton list. -/
lemma mem_ite_singleton {a b : String} {c : Prop} [Decidable c] :
    a ∈ (if c then [b] else []) ↔ c ∧ a = b := by
  split <;> simp_all

/-- A conditional singleton is a sublist of the corresponding singleton. -/
lemma ifSingleton_sublist {α} (c : Prop) [Decidable c] (a : α) :
    List.Sublist (if c then [a] else []) [a] := by
  split
  · exact List.Sublist.refl _
  · exact List.nil_sublist _

/-- A left-nested append of six conditional singletons is a sublist of the
six-element list of those values. -/
lemma singletonChain6 {α} (c1 c2 c3 c4 c5 c6 : Prop)
    [Decidable c1] [Decidable c2] [Decidable c3] [Decidable c4]
    [Decidable c5] [Decidable c6] (a1 a2 a3 a4 a5 a6 : α) :
    List.Sublist
      ((((((if c1 then [a1] else []) ++ (if c2 then [a2] else []))
          ++ (if c3 then [a3] else [])) ++ (if c4 then [a4] else []))
        ++ (if c5 then [a5] else [])) ++ (if c6 then [a6] else []))
      [a1, a2, a3, a4, a5, a6] := by
  have h := List.Sublist.append (List.Sublist.append (List.Sublist.append
    (List.Sublist.append (List.Sublist.append (ifSingleton_sublist c1 a1)
      (ifSingleton_sublist c2 a2)) (ifSingleton_sublist c3 a3))
    (ifSingleton_sublist c4 a4)) (ifSingleton_sublist c5 a5))
    (ifSingleton_sublist c6 a6)
  simpa using h

/-- A left-nested append of four conditional singletons is a sublist of the
four-element list of those values. -/
lemma singletonChain4 {α} (c1 c2 c3 c4 : Prop)
    [Decidable c1] [Decidable c2] [Decidable c3] [Decidable c4]
    (a1 a2 a3 a4 : α) :
    List.Sublist
      ((((if c1 then [a1] else []) ++ (if c2 then [a2] else []))
        ++ (if c3 then [a3] else [])) ++ (if c4 then [a4] else []))
      [a1, a2, a3, a4] := by
  have h := List.Sublist.append (List.Sublist.append
    (List.Sublist.append (ifSingleton_sublist c1 a1)
      (ifSingleton_sublist c2 a2)) (ifSingleton_sublist c3 a3))
    (ifSingleton_sublist c4 a4)
  simpa using h

/-- The cap-violation list only ever holds the six cap codes, each at most
once, in checks-1–6 order. -/
lemma capViolations_sublist (bankroll : ℚ) (rules : UserRules)
    (bet : ProposedBet) (exp : Exposures) :
    List.Sublist (capViolations bankroll rules bet exp)
      [R.UNIT, R.DAILY, R.WEEKLY, R.EVENT, R.TEAM, R.FREQ] := by
  unfold capViolations
  exact singletonChain6 _ _ _ _ _ _ _ _ _ _ _ _

/-- The gate list only ever holds the single odds-gate code. -/
lemma oddsGates_sublist (rules : UserRules) (bet : ProposedBet) :
    List.Sublist (oddsGates rules bet) [R.ODDS] :=
  ifSingleton_sublist _ _

/-- The flag list only ever holds the four flag codes, each at most once,
in checks-1–4 order. -/
lemma behaviorFlags_sublist (beh : BehavioralState) :
    List.Sublist (behaviorFlags beh)
      [R.STAKE_SPIKE, R.FREQ_SPIKE, R.CONS_OVR, R.CD_HIST] := by
  unfold behaviorFlags
  exact singletonChain4 _ _ _ _ _ _ _ _

/-- One verdict tier never ranks above the tier the first amplification rule
produces from it. -/
lemma rank_le_amp1 (violations : List String) (v : Verdict) :
    rank v ≤ rank (amp1 violations v) := by
  unfold amp1
  split
  · cases v <;> decide
  · exact le_refl _

/-- One verdict tier never ranks above the tier the second amplification
rule produces from it. -/
lemma rank_le_amp2 (beh : BehavioralState) (v : Verdict) :
    rank v ≤ rank (amp2 beh v) := by
  unfold amp2
  split
  · cases v <;> decide
  · exact le_refl _

/-- One verdict tier never ranks above the tier the third amplification rule
produces from it. -/
lemma rank_le_amp3 (beh : BehavioralState) (vCount : ℕ) (v : Verdict) :
    rank v ≤ rank (amp3 beh vCount v) := by
  unfold amp3
  split
  · cases v <;> decide
  · exact le_refl _

/-- Escalating one tier never lowers the rank. -/
lemma rank_le_escalateOneTier (v : Verdict) :
    rank v ≤ rank (escalateOneTier v) := by
  cases v <;> decide

/-- `maxTier` never ranks below its first argument. -/
lemma rank_le_maxTier (a b : Verdict) : rank a ≤ rank (maxTier a b) := by
  unfold maxTier
  split
  · exact le_refl _
  · omega

/-- One verdict tier never ranks above the tier the fourth amplification
rule produces from it. -/
lemma rank_le_amp4 (beh : BehavioralState) (vCount : ℕ) (v : Verdict) :
    rank v ≤ rank (amp4 beh vCount v) := by
  unfold amp4
  split
  · exact rank_le_escalateOneTier v
  · exact le_refl _

/-- One verdict tier never ranks above the tier the fifth amplification rule
produces from it. -/
lemma rank_le_amp5 (beh : BehavioralState) (gates : List String) (v : Verdict) :
    rank v ≤ rank (amp5 beh gates v) := by
  unfold amp5
  split
  · exact rank_le_maxTier v _
  · exact le_refl _

/-- The full amplification chain never lowers the verdict rank. -/
lemma rank_le_amplify (violations gates : List String) (beh : BehavioralState)
    (v : Verdict) : rank v ≤ rank (amplify violations gates beh v) :=
  le_trans (rank_le_amp1 violations v)
    (le_trans (rank_le_amp2 beh _)
      (le_trans (rank_le_amp3 beh violations.length _)
        (le_trans (rank_le_amp4 beh violations.length _)
          (rank_le_amp5 beh gates _))))

/-!
## Claims
-/

/-- C1: whenever `behavior.cooldown_active` is true, `evaluate_v1` returns
immediately with verdict RED_ALERT, reasons exactly `[COOLDOWN_ACTIVE]`,
`friction_required = true` and `cooldown_triggered = true`, regardless of
capital, rules, action, exposures and all other behavioural fields: no cap,
gate or flag check contributes. -/
theorem cooldown_hard_stop (bankroll : ℚ) (rules : UserRules)
    (bet : ProposedBet) (exp : Exposures) (beh : BehavioralState)
    (h : beh.cooldown_active = true) :
    evaluate_v1 bankroll rules bet exp beh =
      { verdict := .RED_ALERT, reasons := [R.CD_ACTIVE]
      , friction_required := true, cooldown_triggered := true } := by
  simp [evaluate_v1, h]

/-- Witness for C1 at a concrete input where every other check would fire. -/
theorem cooldown_hard_stop_witness :
    evaluate_v1 0 DEFAULT_RULES ⟨1000, 0, "E1", "T1"⟩ ⟨9, 9, 9, 9, 9⟩
        ⟨true, true, 9, 9, true⟩ =
      { verdict := .RED_ALERT, reasons := [R.CD_ACTIVE]
      , friction_required := true, cooldown_triggered := true } :=
  cooldown_hard_stop 0 DEFAULT_RULES ⟨1000, 0, "E1", "T1"⟩ ⟨9, 9, 9, 9, 9⟩
    ⟨true, true, 9, 9, true⟩ rfl

/-- C2: with cooldown inactive, each of the six cap checks uses strict
inequality: the violation code is among the reasons exactly when the stake
(resp. the projected value) strictly exceeds its derived cap, so a value
exactly equal to the cap never triggers the violation. -/
theorem strict_cap_checks (bankroll : ℚ) (rules : UserRules)
    (bet : ProposedBet) (exp : Exposures) (beh : BehavioralState)
    (h : beh.cooldown_active = false) :
    (R.UNIT ∈ (evaluate_v1 bankroll rules bet exp beh).reasons ↔
      bet.stake > bankroll * (rules.unit_pct / 100)) ∧
    (R.DAILY ∈ (evaluate_v1 bankroll rules bet exp beh).reasons ↔
      exp.daily_staked + bet.stake > bankroll * (rules.daily_pct / 100)) ∧
    (R.WEEKLY ∈ (evaluate_v1 bankroll rules bet exp beh).reasons ↔
      exp.weekly_staked + bet.stake > bankroll * (rules.weekly_pct / 100)) ∧
    (R.EVENT ∈ (evaluate_v1 bankroll rules bet exp beh).reasons ↔
      exp.same_group1_staked + bet.stake > bankroll * (rules.group1_pct / 100)) ∧
    (R.TEAM ∈ (evaluate_v1 bankroll rules bet exp beh).reasons ↔
      exp.same_group2_7d_staked + bet.stake > bankroll * (rules.group2_pct / 100)) ∧
    (R.FREQ ∈ (evaluate_v1 bankroll rules bet exp beh).reasons ↔
      exp.bets_today + 1 > rules.freq_cap) := by
  simp only [evaluate_v1, h, Bool.false_eq_true, if_false]
  simp [capViolations, oddsGates, behaviorFlags, mem_ite_singleton,
    List.mem_append, R.UNIT, R.DAILY, R.WEEKLY, R.EVENT, R.TEAM, R.FREQ,
    R.ODDS, R.STAKE_SPIKE, R.FREQ_SPIKE, R.CONS_OVR, R.CD_HIST]

/-- Witness for C2 at the claim's own example: capital 1000, unit 2% so
`unit_cap = 20`; stake 20 does not trigger `UNIT_SIZE_CAP_EXCEEDED`,
stake 20.01 does. -/
theorem strict_cap_checks_witness :
    R.UNIT ∉ (evaluate_v1 1000 DEFAULT_RULES ⟨20, -110, "E1", "T1"⟩
      ⟨0, 0, 0, 0, 0⟩ ⟨false, false, 0, 0, false⟩).reasons ∧
    R.UNIT ∈ (evaluate_v1 1000 DEFAULT_RULES ⟨20.01, -110, "E1", "T1"⟩
      ⟨0, 0, 0, 0, 0⟩ ⟨false, false, 0, 0, false⟩).reasons := by
  constructor
  · rw [(strict_cap_checks 1000 DEFAULT_RULES ⟨20, -110, "E1", "T1"⟩
      ⟨0, 0, 0, 0, 0⟩ ⟨false, false, 0, 0, false⟩ rfl).1]
    norm_num [DEFAULT_RULES]
  · rw [(strict_cap_checks 1000 DEFAULT_RULES ⟨20.01, -110, "E1", "T1"⟩
      ⟨0, 0, 0, 0, 0⟩ ⟨false, false, 0, 0, false⟩ rfl).1]
    norm_num [DEFAULT_RULES]

/-- C3: with cooldown inactive, writing `v` for the number of triggered cap
violations and `g` for the number of triggered gates, the base verdict of
Step 6 is ALLOW when `v = 0, g = 0`, WARN when `v = 0, g > 0`, WARN when
`v = 1` and HARD_WARN when `v ≥ 2`. -/
theorem base_verdict_mapping (bankroll : ℚ) (rules : UserRules)
    (bet : ProposedBet) (exp : Exposures) (beh : BehavioralState)
    (h : beh.cooldown_active = false) :
    ((capViolations bankroll rules bet exp).length = 0 ∧
        (oddsGates rules bet).length = 0 →
      baseVerdict (capViolations bankroll rules bet exp).length
        (oddsGates rules bet).length = .ALLOW) ∧
    ((capViolations bankroll rules bet exp).length = 0 ∧
        (oddsGates rules bet).length > 0 →
      baseVerdict (capViolations bankroll rules bet exp).length
        (oddsGates rules bet).length = .WARN) ∧
    ((capViolations bankroll rules bet exp).length = 1 →
      baseVerdict (capViolations bankroll rules bet exp).length
        (oddsGates rules bet).length = .WARN) ∧
    ((capViolations bankroll rules bet exp).length ≥ 2 →
      baseVerdict (capViolations bankroll rules bet exp).length
        (oddsGates rules bet).length = .HARD_WARN) := by
  refine ⟨?_, ?_, ?_, ?_⟩ <;> intro hv <;> unfold baseVerdict <;>
    split_ifs <;> first | rfl | (exfalso; omega)

/-- Witness for C3: the four cases realised on concrete inputs. -/
theorem base_verdict_mapping_witness :
    baseVerdict (capViolations 1000 DEFAULT_RULES ⟨10, -110, "E1", "T1"⟩
        ⟨0, 0, 0, 0, 0⟩).length
      (oddsGates DEFAULT_RULES ⟨10, -110, "E1", "T1"⟩).length = .ALLOW :=
  (base_verdict_mapping 1000 DEFAULT_RULES ⟨10, -110, "E1", "T1"⟩
    ⟨0, 0, 0, 0, 0⟩ ⟨false, false, 0, 0, false⟩ rfl).1
    (by norm_num [capViolations, oddsGates, DEFAULT_RULES, isValidAmericanOdds])

/-- C4: with cooldown inactive, the final verdict after the five
amplification rules never ranks below the Step 6 base verdict in the tier
order ALLOW < WARN < HARD_WARN < RED_ALERT. -/
theorem amplification_monotone (bankroll : ℚ) (rules : UserRules)
    (bet : ProposedBet) (exp : Exposures) (beh : BehavioralState)
    (h : beh.cooldown_active = false) :
    rank (baseVerdict (capViolations bankroll rules bet exp).length
        (oddsGates rules bet).length)
      ≤ rank ((evaluate_v1 bankroll rules bet exp beh).verdict) := by
  simp only [evaluate_v1, h, Bool.false_eq_true, if_false]
  exact rank_le_amplify _ _ beh _

/-- Witness for C4 on a concrete input where amplification strictly raises
the verdict (one violation plus a stake-velocity spike). -/
theorem amplification_monotone_witness :
    rank (baseVerdict (capViolations 1000 DEFAULT_RULES ⟨25, -110, "E1", "T1"⟩
        ⟨0, 0, 0, 0, 0⟩).length
      (oddsGates DEFAULT_RULES ⟨25, -110, "E1", "T1"⟩).length)
      ≤ rank ((evaluate_v1 1000 DEFAULT_RULES ⟨25, -110, "E1", "T1"⟩
        ⟨0, 0, 0, 0, 0⟩ ⟨true, false, 0, 0, false⟩).verdict) :=
  amplification_monotone 1000 DEFAULT_RULES ⟨25, -110, "E1", "T1"⟩
    ⟨0, 0, 0, 0, 0⟩ ⟨true, false, 0, 0, false⟩ rfl

/-- C5: with cooldown inactive, the reason list is exactly the violations
list (in checks-1–6 order) concatenated with the gates list concatenated
with the flags list (in checks-1–4 order), and consequently holds each
reason code at most once. -/
theorem reason_order_contract (bankroll : ℚ) (rules : UserRules)
    (bet : ProposedBet) (exp : Exposures) (beh : BehavioralState)
    (h : beh.cooldown_active = false) :
    (evaluate_v1 bankroll rules bet exp beh).reasons =
      capViolations bankroll rules bet exp ++ oddsGates rules bet
        ++ behaviorFlags beh ∧
    List.Nodup ((evaluate_v1 bankroll rules bet exp beh).reasons) := by
  have heq : (evaluate_v1 bankroll rules bet exp beh).reasons =
      capViolations bankroll rules bet exp ++ oddsGates rules bet
        ++ behaviorFlags beh := by
    simp [evaluate_v1, h]
  refine ⟨heq, ?_⟩
  rw [heq]
  have hsub := List.Sublist.append (List.Sublist.append
    (capViolations_sublist bankroll rules bet exp) (oddsGates_sublist rules bet))
    (behaviorFlags_sublist beh)
  have hnd : List.Nodup
      ([R.UNIT, R.DAILY, R.WEEKLY, R.EVENT, R.TEAM, R.FREQ] ++ [R.ODDS]
        ++ [R.STAKE_SPIKE, R.FREQ_SPIKE, R.CONS_OVR, R.CD_HIST]) := by
    simp [R.UNIT, R.DAILY, R.WEEKLY, R.EVENT, R.TEAM, R.FREQ, R.ODDS,
      R.STAKE_SPIKE, R.FREQ_SPIKE, R.CONS_OVR, R.CD_HIST]
  exact hnd.sublist hsub

/-- Witness for C5 on an input triggering a violation, the gate and two
flags at once. -/
theorem reason_order_contract_witness :
    (evaluate_v1 1000 DEFAULT_RULES ⟨25, 300, "E1", "T1"⟩ ⟨0, 0, 0, 0, 0⟩
        ⟨true, false, 0, 1, false⟩).reasons =
      capViolations 1000 DEFAULT_RULES ⟨25, 300, "E1", "T1"⟩ ⟨0, 0, 0, 0, 0⟩
        ++ oddsGates DEFAULT_RULES ⟨25, 300, "E1", "T1"⟩
        ++ behaviorFlags ⟨true, false, 0, 1, false⟩ ∧
    List.Nodup ((evaluate_v1 1000 DEFAULT_RULES ⟨25, 300, "E1", "T1"⟩
      ⟨0, 0, 0, 0, 0⟩ ⟨true, false, 0, 1, false⟩).reasons) :=
  reason_order_contract 1000 DEFAULT_RULES ⟨25, 300, "E1", "T1"⟩
    ⟨0, 0, 0, 0, 0⟩ ⟨true, false, 0, 1, false⟩ rfl

/-- C6: with cooldown inactive, `HIGH_RISK_ODDS_GATE` is among the reasons
iff the odds are invalid (`isValidAmericanOdds` false: on `ℚ` a
non-integer or zero value; non-finite values do not exist) or the odds
reach `rules.odds_gate`; the gate list holds at most that one code, and the
condition involves neither capital nor exposures, so the gate is
independent of which cap violations fired. -/
theorem odds_gate_characterization (bankroll : ℚ) (rules : UserRules)
    (bet : ProposedBet) (exp : Exposures) (beh : BehavioralState)
    (h : beh.cooldown_active = false) :
    (R.ODDS ∈ (evaluate_v1 bankroll rules bet exp beh).reasons ↔
      (isValidAmericanOdds bet.odds = false ∨ bet.odds ≥ rules.odds_gate)) ∧
    (oddsGates rules bet = [R.ODDS] ∨ oddsGates rules bet = []) := by
  constructor
  · simp only [evaluate_v1, h, Bool.false_eq_true, if_false]
    simp [capViolations, oddsGates, behaviorFlags, mem_ite_singleton,
      List.mem_append, R.UNIT, R.DAILY, R.WEEKLY, R.EVENT, R.TEAM, R.FREQ,
      R.ODDS, R.STAKE_SPIKE, R.FREQ_SPIKE, R.CONS_OVR, R.CD_HIST]
  · unfold oddsGates
    split
    · exact Or.inl rfl
    · exact Or.inr rfl

/-- Witness for C6 at the claim's examples: with the default gate 250,
odds 0 and odds 150.5 both fire the gate although their magnitude is below
the threshold. -/
theorem odds_gate_characterization_witness :
    R.ODDS ∈ (evaluate_v1 1000 DEFAULT_RULES ⟨10, 0, "E1", "T1"⟩
      ⟨0, 0, 0, 0, 0⟩ ⟨false, false, 0, 0, false⟩).reasons ∧
    R.ODDS ∈ (evaluate_v1 1000 DEFAULT_RULES ⟨10, 150.5, "E1", "T1"⟩
      ⟨0, 0, 0, 0, 0⟩ ⟨false, false, 0, 0, false⟩).reasons := by
  constructor
  · rw [(odds_gate_characterization 1000 DEFAULT_RULES ⟨10, 0, "E1", "T1"⟩
      ⟨0, 0, 0, 0, 0⟩ ⟨false, false, 0, 0, false⟩ rfl).1]
    left
    norm_num [isValidAmericanOdds]
  · rw [(odds_gate_characterization 1000 DEFAULT_RULES ⟨10, 150.5, "E1", "T1"⟩
      ⟨0, 0, 0, 0, 0⟩ ⟨false, false, 0, 0, false⟩ rfl).1]
    left
    norm_num [isValidAmericanOdds]

/-- The exposure fold, from any starting accumulator, adds to each
accumulator field exactly the filtered sums over the remaining ledger. -/
lemma foldl_expStep_spec (g1 g2 : String) (d w t : ℚ)
    (ledger : List LedgerEntry) (acc : Exposures) :
    ledger.foldl (expStep g1 g2 d w t) acc =
      { daily_staked := acc.daily_staked +
          ((ledger.filter (fun e => decide (e.ts ≥ d))).map LedgerEntry.stake).sum
      , weekly_staked := acc.weekly_staked +
          ((ledger.filter (fun e => decide (e.ts ≥ w))).map LedgerEntry.stake).sum
      , same_group1_staked := acc.same_group1_staked +
          ((ledger.filter (fun e =>
            decide (e.ts ≥ d ∧ e.group1_id = g1))).map LedgerEntry.stake).sum
      , same_group2_7d_staked := acc.same_group2_7d_staked +
          ((ledger.filter (fun e =>
            decide (e.ts ≥ t ∧ e.group2_id = g2))).map LedgerEntry.stake).sum
      , bets_today := acc.bets_today +
          ((ledger.filter (fun e => decide (e.ts ≥ d))).length : ℚ) } := by
  induction ledger generalizing acc with
  | nil => simp
  | cons e l ih =>
    rw [List.foldl_cons, ih]
    unfold expStep
    by_cases h1 : e.ts ≥ d <;> by_cases h2 : e.group1_id = g1 <;>
      by_cases h3 : e.ts ≥ w <;> by_cases h4 : e.ts ≥ t ∧ e.group2_id = g2 <;>
      simp [h1, h2, h3, h4, List.filter_cons, Exposures.mk.injEq] <;>
      and_intros <;> first | trivial | (push_cast; ring1)

/-- C7: the exposure aggregation is a single pass in which every ledger
entry is independently tested against each window and can count toward
several sums at once: entries with `ts ≥ dayStart` contribute their stake to
`daily_staked` and one to `bets_today` (plus their stake to
`same_group1_staked` when their group1 id matches); entries with
`ts ≥ weekStart` contribute to `weekly_staked`; entries with
`ts ≥ now - MS_7D` and a matching group2 id contribute to
`same_group2_7d_staked`.  No other field ever excludes an entry. -/
theorem computeExposures_characterization (ledger : List LedgerEntry)
    (group1_id group2_id : String) (dayStart weekStart now : ℚ) :
    computeExposures ledger group1_id group2_id dayStart weekStart now =
      { daily_staked := ((ledger.filter (fun e =>
          decide (e.ts ≥ dayStart))).map LedgerEntry.stake).sum
      , weekly_staked := ((ledger.filter (fun e =>
          decide (e.ts ≥ weekStart))).map LedgerEntry.stake).sum
      , same_group1_staked := ((ledger.filter (fun e =>
          decide (e.ts ≥ dayStart ∧ e.group1_id = group1_id))).map
            LedgerEntry.stake).sum
      , same_group2_7d_staked := ((ledger.filter (fun e =>
          decide (e.ts ≥ now - MS_7D ∧ e.group2_id = group2_id))).map
            LedgerEntry.stake).sum
      , bets_today := ((ledger.filter (fun e =>
          decide (e.ts ≥ dayStart))).length : ℚ) } := by
  unfold computeExposures
  rw [foldl_expStep_spec]
  simp

/-- C8: loading the rule configuration merges stored fields over the
defaults: every absent field comes back as its spec default (unit 2, daily
6, weekly 20, group1 4, group2 8, freq_cap 5, odds_gate 250) — never zero
— and absent or corrupt storage yields exactly the full default
configuration. -/
theorem loadRules_defaulting :
    loadRules .absent = DEFAULT_RULES ∧
    loadRules .corrupt = DEFAULT_RULES ∧
    ∀ p : StoredRules,
      (p.unit_pct = none → (loadRules (.stored p)).unit_pct = 2) ∧
      (p.daily_pct = none → (loadRules (.stored p)).daily_pct = 6) ∧
      (p.weekly_pct = none → (loadRules (.stored p)).weekly_pct = 20) ∧
      (p.group1_pct = none → (loadRules (.stored p)).group1_pct = 4) ∧
      (p.group2_pct = none → (loadRules (.stored p)).group2_pct = 8) ∧
      (p.freq_cap = none → (loadRules (.stored p)).freq_cap = 5) ∧
      (p.odds_gate = none → (loadRules (.stored p)).odds_gate = 250) := by
  refine ⟨rfl, rfl, fun p => ⟨?_, ?_, ?_, ?_, ?_, ?_, ?_⟩⟩ <;> intro hp <;>
    simp [loadRules, mergeRules, hp, DEFAULT_RULES]

/-- Witness for C8: a stored object with every field absent loads as the
defaults, shown on the unit-percentage field. -/
theorem loadRules_defaulting_witness :
    (loadRules (.stored ⟨none, none, none, none, none, none, none⟩)).unit_pct
      = 2 :=
  (loadRules_defaulting.2.2 ⟨none, none, none, none, none, none, none⟩).1 rfl

/-- C9: appending to the ledger prepends the new entry, keeps at most 500
entries discarding only the oldest beyond the cap, and leaves every
retained existing entry unmodified at its shifted position. -/
theorem addToLedger_bounded_prepend (entry : LedgerEntry)
    (ledger : List LedgerEntry) :
    addToLedger entry ledger = entry :: ledger.take 499 ∧
    (addToLedger entry ledger).length ≤ 500 ∧
    (ledger.length ≤ 499 → addToLedger entry ledger = entry :: ledger) ∧
    (∀ i : ℕ, i < 499 → (addToLedger entry ledger)[i + 1]? = ledger[i]?) := by
  have h1 : addToLedger entry ledger = entry :: ledger.take 499 := rfl
  refine ⟨h1, ?_, ?_, ?_⟩
  · have hlen : (addToLedger entry ledger).length =
        min 499 ledger.length + 1 := by
      simp [addToLedger]
    omega
  · intro hlen
    rw [h1, List.take_of_length_le hlen]
  · intro i hi
    rw [h1, List.getElem?_cons_succ]
    exact List.getElem?_take_of_lt hi

/-- Witness for C9: appending to a two-entry ledger keeps both old entries
in order after the new head. -/
theorem addToLedger_bounded_prepend_witness :
    (addToLedger ⟨"c", 2, 30, -110, "E3", "T3", .ALLOW, []⟩
        [⟨"b", 1, 20, -110, "E2", "T2", .ALLOW, []⟩,
         ⟨"a", 0, 10, -110, "E1", "T1", .ALLOW, []⟩])[1]? =
      [⟨"b", 1, 20, -110, "E2", "T2", .ALLOW, []⟩,
       (⟨"a", 0, 10, -110, "E1", "T1", .ALLOW, []⟩ : LedgerEntry)][0]? :=
  (addToLedger_bounded_prepend ⟨"c", 2, 30, -110, "E3", "T3", .ALLOW, []⟩
    [⟨"b", 1, 20, -110, "E2", "T2", .ALLOW, []⟩,
     ⟨"a", 0, 10, -110, "E1", "T1", .ALLOW, []⟩]).2.2.2 0 (by norm_num)

/-- C10: the two duplicated engine variants agree under the default rules:
on every bankroll, bet, exposure snapshot and behavioural state, the
hard-coded engine of page.tsx returns exactly the `DecisionResult` that the
rule-parameterised engine of part_000 returns with `DEFAULT_RULES` (the
hard-coded 0.02, 0.06, 0.20, 0.04, 0.08, 5 and 250 are the default 2%, 6%,
20%, 4%, 8%, freq cap 5 and odds gate 250). -/
theorem page_engine_equiv (bankroll : ℚ) (bet : ProposedBet)
    (exposures : Exposures) (behavioral : BehavioralStatePage) :
    evaluate_page bankroll bet exposures behavioral =
      evaluate_v1 bankroll DEFAULT_RULES bet exposures behavioral.toCore := by
  unfold evaluate_page evaluate_v1 BehavioralStatePage.toCore capViolations
    oddsGates behaviorFlags baseVerdict amplify amp1 amp2 amp3 amp4 amp5
  norm_num [DEFAULT_RULES]
